import Mathlib

set_option maxHeartbeats 1000000
set_option maxRecDepth 4000

/-
Verification of the EcoAgent repository (agente/rag_pipeline.py,
agente/tools.py, agente/eco_agent.py, config.py) against its
natural-language specification.  Python code is shallowly embedded:
pure functions become Lean functions, exceptions become `Except`,
the varying "now" of `datetime.now()` becomes an explicit parameter.
-/

/-! ### Documents (langchain.schema.Document as used by the pipeline) -/

/-- A langchain `Document` as the simulated vector store uses it:
only `page_content` and the metadata source tag matter here. -/
structure Doc where
  page_content : String
  source : String
deriving Repr, DecidableEq

/-! ### Python string primitives used by `SimulatedVectorStore.similarity_search`
(rag_pipeline.py lines 261-282) -/

/-- Models Python `str.lower()` (character-wise lowering; exact on ASCII,
which is all the scorer's behaviour in the claims depends on). -/
def pyLower (s : String) : String := ⟨s.data.map Char.toLower⟩

/-- Accumulator pass for `str.split()` with no separator: whitespace runs
delimit tokens and empty tokens are dropped. -/
def splitWsAux : List Char → List Char → List (List Char)
  | [], acc => if acc.isEmpty then [] else [acc.reverse]
  | c :: cs, acc =>
    if c.isWhitespace then
      if acc.isEmpty then splitWsAux cs [] else acc.reverse :: splitWsAux cs []
    else splitWsAux cs (c :: acc)

/-- Models Python `s.split()` (split on whitespace, discarding empties). -/
def pySplit (s : String) : List (List Char) := splitWsAux s.data []

/-- Models Python `needle in hay` for strings: substring containment. -/
def containsSub (needle hay : List Char) : Bool :=
  hay.tails.any fun t => needle.isPrefixOf t

/-- Scan for `str.count`: non-overlapping occurrences, left to right.
`skip` is how many characters of the previous match are still to be
passed over before matching may resume. -/
def pyCountAux (needle : List Char) : List Char → Nat → Nat
  | [], _ => 0
  | _ :: cs, skip + 1 => pyCountAux needle cs skip
  | c :: cs, 0 =>
    if needle.isPrefixOf (c :: cs) then
      1 + pyCountAux needle cs (needle.length - 1)
    else
      pyCountAux needle cs 0

/-- Models Python `hay.count(needle)`: non-overlapping occurrences
(`s.count("")` is `len(s) + 1` in Python). -/
def pyCount (needle hay : List Char) : Nat :=
  if needle.isEmpty then hay.length + 1 else pyCountAux needle hay 0

/-! ### `SimulatedVectorStore.similarity_search` (rag_pipeline.py 261-282) -/

/-- The per-document score of the loop in `similarity_search`:
`keywords = query.lower().split()`, and for each keyword,
`if keyword in content_lower: score += content_lower.count(keyword)`. -/
def scoreDoc (query : String) (doc : Doc) : Nat :=
  let content_lower := (pyLower doc.page_content).data
  let keywords := pySplit (pyLower query)
  keywords.foldl
    (fun score keyword =>
      if containsSub keyword content_lower then score + pyCount keyword content_lower
      else score)
    0

/-- The `scored_docs` list of `similarity_search`: one `(score, doc)` pair
per document with positive score, in corpus (insertion) order. -/
def scoredDocs (query : String) (docs : List Doc) : List (Nat × Doc) :=
  docs.filterMap fun d =>
    let s := scoreDoc query d
    if s > 0 then some (s, d) else none

/-- One insertion step of the descending stable sort modelling
`scored_docs.sort(key=lambda x: x[0], reverse=True)`: the new element is
placed before the first element whose score is not greater than its own. -/
def insDesc (x : Nat × Doc) : List (Nat × Doc) → List (Nat × Doc)
  | [] => [x]
  | y :: ys => if x.1 < y.1 then y :: insDesc x ys else x :: y :: ys

/-- Models `list.sort(key=lambda x: x[0], reverse=True)` (CPython's sort is
stable; `reverse=True` keeps equal keys in original order).  Proved below:
a permutation, weakly descending, and stable on equal scores. -/
def sortDesc : List (Nat × Doc) → List (Nat × Doc)
  | [] => []
  | x :: xs => insDesc x (sortDesc xs)

/-- `SimulatedVectorStore.similarity_search` (rag_pipeline.py 261-282):
score the corpus, keep positive scores, sort descending (stable), return
the documents of the first `k` pairs. -/
def similarity_search (docs : List Doc) (query : String) (k : Nat) : List Doc :=
  ((sortDesc (scoredDocs query docs)).take k).map Prod.snd

/-! Sanity checks of the embedding on concrete values. -/

example : pySplit "  Hola   Mundo " = [['H','o','l','a'], ['M','u','n','d','o']] := by decide

example : pyCount ['a','b'] ['a','b','a','b','x','a','b'] = 3 := by decide

example : pyCount ['a','a'] ['a','a','a'] = 1 := by decide

example :
    similarity_search
      [⟨"politica de devolucion devolucion", "d1"⟩, ⟨"soporte", "d2"⟩,
       ⟨"una devolucion", "d3"⟩]
      "Devolucion" 2
    = [⟨"politica de devolucion devolucion", "d1"⟩, ⟨"una devolucion", "d3"⟩] := by decide

example : similarity_search [⟨"soporte", "d2"⟩] "devolucion" 4 = [] := by decide

/-! ### Properties of the lexical scorer (claim C1) -/

lemma insDesc_perm (x : Nat × Doc) (l : List (Nat × Doc)) :
    (insDesc x l).Perm (x :: l) := by
  induction l with
  | nil => simp [insDesc]
  | cons y ys ih =>
    by_cases h : x.1 < y.1
    · simp only [insDesc, if_pos h]
      exact (ih.cons y).trans (List.Perm.swap x y ys)
    · simp [insDesc, if_neg h]

lemma sortDesc_perm (l : List (Nat × Doc)) : (sortDesc l).Perm l := by
  induction l with
  | nil => simp [sortDesc]
  | cons x xs ih =>
    exact (insDesc_perm x (sortDesc xs)).trans (ih.cons x)

lemma insDesc_pairwise (x : Nat × Doc) (l : List (Nat × Doc))
    (h : l.Pairwise (fun p r => r.1 ≤ p.1)) :
    (insDesc x l).Pairwise (fun p r => r.1 ≤ p.1) := by
  induction l with
  | nil => simp [insDesc]
  | cons y ys ih =>
    rcases List.pairwise_cons.mp h with ⟨h1, h2⟩
    by_cases hx : x.1 < y.1
    · simp only [insDesc, if_pos hx]
      refine List.Pairwise.cons ?_ (ih h2)
      intro z hz
      rcases List.mem_cons.mp ((insDesc_perm x ys).mem_iff.mp hz) with hz | hz
      · exact hz ▸ le_of_lt hx
      · exact h1 z hz
    · simp only [insDesc, if_neg hx]
      refine List.Pairwise.cons ?_ h
      intro z hz
      rcases List.mem_cons.mp hz with hz | hz
      · exact hz ▸ le_of_not_lt hx
      · exact le_trans (h1 z hz) (le_of_not_lt hx)

lemma sortDesc_pairwise (l : List (Nat × Doc)) :
    (sortDesc l).Pairwise (fun p r => r.1 ≤ p.1) := by
  induction l with
  | nil => simp [sortDesc]
  | cons x xs ih => exact insDesc_pairwise x (sortDesc xs) ih

lemma filter_insDesc (s : Nat) (x : Nat × Doc) (l : List (Nat × Doc)) :
    (insDesc x l).filter (fun p => p.1 == s) =
      if x.1 == s then x :: l.filter (fun p => p.1 == s)
      else l.filter (fun p => p.1 == s) := by
  induction l with
  | nil => by_cases hx : x.1 == s <;> simp [insDesc, List.filter, hx]
  | cons y ys ih =>
    by_cases hx : x.1 < y.1
    · simp only [insDesc, if_pos hx, List.filter_cons]
      rw [ih]
      by_cases hy : y.1 == s
      · have hy' : y.1 = s := by simpa using hy
        have hne : x.1 ≠ s := by omega
        have hxs : (x.1 == s) = false := by simpa using hne
        simp [hy, hxs]
      · simp only [hy, Bool.false_eq_true, if_false]
    · simp only [insDesc, if_neg hx, List.filter_cons]

lemma filter_sortDesc (s : Nat) (l : List (Nat × Doc)) :
    (sortDesc l).filter (fun p => p.1 == s) = l.filter (fun p => p.1 == s) := by
  induction l with
  | nil => simp [sortDesc]
  | cons x xs ih =>
    simp only [sortDesc, filter_insDesc, List.filter_cons, ih]

lemma containsSub_nil_left (hay : List Char) : containsSub [] hay = true := by
  cases hay <;> simp [containsSub, List.isPrefixOf]

lemma containsSub_cons_false {n : List Char} {c : Char} {cs : List Char}
    (h : containsSub n (c :: cs) = false) :
    n.isPrefixOf (c :: cs) = false ∧ containsSub n cs = false := by
  simp only [containsSub, List.tails_cons, List.any_cons, Bool.or_eq_false_iff] at h
  exact ⟨h.1, by simp [containsSub, h.2]⟩

lemma pyCountAux_eq_zero {n : List Char} :
    ∀ (l : List Char) (skip : Nat), containsSub n l = false → pyCountAux n l skip = 0 := by
  intro l
  induction l with
  | nil => intro skip _; rfl
  | cons c cs ih =>
    intro skip h
    rcases containsSub_cons_false h with ⟨h1, h2⟩
    match skip with
    | skip' + 1 => exact ih skip' h2
    | 0 => simp only [pyCountAux, h1, Bool.false_eq_true, if_false]; exact ih 0 h2

lemma pyCount_eq_zero {n hay : List Char} (h : containsSub n hay = false) :
    pyCount n hay = 0 := by
  have hn : n.isEmpty = false := by
    cases n with
    | nil => rw [containsSub_nil_left] at h; exact absurd h (by simp)
    | cons a as => rfl
  simp only [pyCount, hn, Bool.false_eq_true, if_false]
  exact pyCountAux_eq_zero hay 0 h

lemma foldl_score_of_none (c : List Char) (ks : List (List Char)) (a : Nat)
    (h : ∀ kw ∈ ks, containsSub kw c = false) :
    ks.foldl
      (fun score kw => if containsSub kw c then score + pyCount kw c else score)
      a = a := by
  induction ks generalizing a with
  | nil => rfl
  | cons k ks ih =>
    have hk := h k (List.mem_cons_self k ks)
    simp only [List.foldl_cons, hk, Bool.false_eq_true, if_false]
    exact ih a fun kw hkw => h kw (List.mem_cons_of_mem k hkw)

lemma foldl_score_eq_sum (c : List Char) (ks : List (List Char)) (a : Nat) :
    ks.foldl
      (fun score kw => if containsSub kw c then score + pyCount kw c else score)
      a = a + (ks.map fun kw => pyCount kw c).sum := by
  induction ks generalizing a with
  | nil => simp
  | cons k ks ih =>
    simp only [List.foldl_cons, List.map_cons, List.sum_cons]
    by_cases hk : containsSub k c
    · rw [if_pos hk, ih]
      omega
    · rw [if_neg hk, ih, pyCount_eq_zero (Bool.of_not_eq_true hk)]
      omega

lemma scoreDoc_eq_sum (query : String) (d : Doc) :
    scoreDoc query d =
      ((pySplit (pyLower query)).map
        fun t => pyCount t (pyLower d.page_content).data).sum := by
  simpa [scoreDoc] using
    foldl_score_eq_sum (pyLower d.page_content).data (pySplit (pyLower query)) 0

lemma scoreDoc_eq_zero (query : String) (d : Doc)
    (h : ∀ t ∈ pySplit (pyLower query), containsSub t (pyLower d.page_content).data = false) :
    scoreDoc query d = 0 :=
  foldl_score_of_none (pyLower d.page_content).data (pySplit (pyLower query)) 0 h

lemma mem_scoredDocs {query : String} {docs : List Doc} {p : Nat × Doc}
    (h : p ∈ scoredDocs query docs) :
    p.2 ∈ docs ∧ p.1 = scoreDoc query p.2 ∧ 0 < p.1 := by
  rcases List.mem_filterMap.mp h with ⟨d, hd, hfd⟩
  by_cases hs : scoreDoc query d > 0
  · simp only [hs, if_pos, Option.some.injEq] at hfd
    rcases hfd with rfl
    exact ⟨hd, rfl, hs⟩
  · simp [hs] at hfd

lemma scoredDocs_map_snd_sublist (query : String) (docs : List Doc) :
    ((scoredDocs query docs).map Prod.snd).Sublist docs := by
  induction docs with
  | nil => simp [scoredDocs]
  | cons d ds ih =>
    simp only [scoredDocs, List.filterMap_cons] at ih ⊢
    by_cases hs : scoreDoc query d > 0
    · simp only [hs, if_pos, List.map_cons]
      exact ih.cons₂ d
    · simp only [if_neg hs]
      exact ih.cons d

lemma scoredDocs_eq_nil {query : String} {docs : List Doc}
    (h : ∀ d ∈ docs, scoreDoc query d = 0) : scoredDocs query docs = [] := by
  apply List.filterMap_eq_nil_iff.mpr
  intro d hd
  simp [h d hd]

/-- C1: for every corpus, query and `k ≥ 0`, `similarity_search` lowercases
the query, splits it into whitespace-delimited terms, scores each document
by the summed occurrence counts of the terms in the lowercased content,
discards zero scores, sorts descending with ties in corpus order (the sort
is a stable permutation), and returns at most the first `k` documents, so
the result has length at most `k` and is empty when no document contains
any query term. -/
theorem similarity_search_lexical_spec (docs : List Doc) (query : String) (k : Nat) :
    (similarity_search docs query k).length ≤ k ∧
    ((∀ d ∈ docs, ∀ t ∈ pySplit (pyLower query),
        containsSub t (pyLower d.page_content).data = false) →
      similarity_search docs query k = []) ∧
    (∀ d : Doc, scoreDoc query d =
      ((pySplit (pyLower query)).map
        fun t => pyCount t (pyLower d.page_content).data).sum) ∧
    similarity_search docs query k
      = ((sortDesc (scoredDocs query docs)).take k).map Prod.snd ∧
    (sortDesc (scoredDocs query docs)).Pairwise (fun p r => r.1 ≤ p.1) ∧
    (∀ s : Nat, (sortDesc (scoredDocs query docs)).filter (fun p => p.1 == s)
      = (scoredDocs query docs).filter (fun p => p.1 == s)) ∧
    (sortDesc (scoredDocs query docs)).Perm (scoredDocs query docs) ∧
    (∀ d ∈ similarity_search docs query k, d ∈ docs ∧ 0 < scoreDoc query d) ∧
    ((scoredDocs query docs).map Prod.snd).Sublist docs := by
  refine ⟨?_, ?_, ?_, rfl, sortDesc_pairwise _, fun s => filter_sortDesc s _,
    sortDesc_perm _, ?_, scoredDocs_map_snd_sublist query docs⟩
  · simp only [similarity_search, List.length_map]
    exact List.length_take_le k _
  · intro h
    have hnil : scoredDocs query docs = [] :=
      scoredDocs_eq_nil fun d hd => scoreDoc_eq_zero query d (h d hd)
    simp [similarity_search, hnil, sortDesc]
  · exact scoreDoc_eq_sum query
  · intro d hd
    rcases List.mem_map.mp hd with ⟨p, hp, rfl⟩
    have hp' : p ∈ sortDesc (scoredDocs query docs) := List.take_subset k _ hp
    have hp'' : p ∈ scoredDocs query docs := (sortDesc_perm _).mem_iff.mp hp'
    rcases mem_scoredDocs hp'' with ⟨h1, h2, h3⟩
    exact ⟨h1, h2 ▸ h3⟩

/-! ### Witness-side helper: `str.startswith` -/

/-- Models Python `s.startswith(p)`. -/
def strStartsWith (p s : String) : Bool := p.data.isPrefixOf s.data

/-! ### `ProductoTools` (tools.py): products database and eligibility check -/

/-- One record of `ProductoTools.productos_db` (tools.py 30-59).  Python
stores `precio` as a float literal; here `precioStr` is its display text
(what the f-string interpolates) and `precioCents` the exact value in
cents, used for the `> 500` comparison. -/
structure Producto where
  nombre : String
  categoria : String
  precioStr : String
  precioCents : Nat
  garantia_dias : Nat
  elegible_devolucion : Bool
deriving Repr, DecidableEq

/-- `ProductoTools.productos_db` (tools.py 30-59). -/
def productos_db : List (String × Producto) :=
  [("PROD001", ⟨"Smartphone EcoTech Pro", "Electrónicos", "299.99", 29999, 30, true⟩),
   ("PROD002", ⟨"Laptop EcoFriendly", "Computadoras", "899.99", 89999, 15, true⟩),
   ("PROD003", ⟨"Auriculares Wireless", "Audio", "79.99", 7999, 14, true⟩),
   ("PROD004", ⟨"Tablet EcoPad", "Tablets", "199.99", 19999, 7, false⟩)]

/-! ### Dates: `datetime.strptime(fecha, "%Y-%m-%d")` and day differences -/

/-- A calendar date (what `datetime.strptime(_, "%Y-%m-%d")` yields, and the
date part of `datetime.now()`). -/
structure Date where
  y : Nat
  m : Nat
  d : Nat
deriving Repr, DecidableEq

/-- Gregorian leap year, as Python's `datetime` uses it. -/
def isLeap (y : Nat) : Bool := (y % 4 == 0 && y % 100 != 0) || y % 400 == 0

/-- Days in a month of the proleptic Gregorian calendar. -/
def daysInMonth (y m : Nat) : Nat :=
  if m = 2 then (if isLeap y then 29 else 28)
  else if m = 4 ∨ m = 6 ∨ m = 9 ∨ m = 11 then 30
  else 31

/-- A run of decimal digits to its value (`none` when empty or non-digit). -/
def digitsToNat (l : List Char) : Option Nat :=
  if l.isEmpty then none
  else if l.all Char.isDigit then
    some (l.foldl (fun a c => a * 10 + (c.toNat - 48)) 0)
  else none

/-- Models `datetime.strptime(s, "%Y-%m-%d")` returning its date on success
and `none` where Python raises `ValueError`: three dash-separated digit
groups (at most 4, 2 and 2 digits), year 1..9999, month 1..12, day valid
for the month. -/
def parseFecha (s : String) : Option Date :=
  match s.data.splitOn '-' with
  | [ys, ms, ds] =>
    match digitsToNat ys, digitsToNat ms, digitsToNat ds with
    | some y, some m, some d =>
      if ys.length ≤ 4 && ms.length ≤ 2 && ds.length ≤ 2 &&
         1 ≤ y && y ≤ 9999 && 1 ≤ m && m ≤ 12 && 1 ≤ d && d ≤ daysInMonth y m then
        some ⟨y, m, d⟩
      else none
    | _, _, _ => none
  | _ => none

/-- Day number of a date (days since 0000-03-01 of the proleptic Gregorian
calendar); differences of `rataDie` are exactly the `.days` of Python's
`datetime` subtraction of two midnights. -/
def rataDie (dt : Date) : Nat :=
  let yAdj := if dt.m ≤ 2 then dt.y - 1 else dt.y
  let era := yAdj / 400
  let yoe := yAdj % 400
  let mp := if dt.m > 2 then dt.m - 3 else dt.m + 9
  let doy := (153 * mp + 2) / 5 + dt.d - 1
  let doe := yoe * 365 + yoe / 4 - yoe / 100 + doy
  era * 146097 + doe

/-- `dias_transcurridos = (datetime.now() - fecha_compra_obj).days`
(tools.py 95): `now`'s time of day is nonnegative and below one day, so the
floored day count is exactly the difference of the two dates. -/
def diasTranscurridos (today fecha : Date) : Int :=
  (rataDie today : Int) - (rataDie fecha : Int)

/-! Sanity checks of the calendar arithmetic. -/

example : diasTranscurridos ⟨2024, 12, 1⟩ ⟨2024, 10, 1⟩ = 61 := by decide

example : diasTranscurridos ⟨2024, 3, 1⟩ ⟨2024, 2, 28⟩ = 2 := by decide

example : diasTranscurridos ⟨2023, 3, 1⟩ ⟨2023, 2, 28⟩ = 1 := by decide

example : diasTranscurridos ⟨2025, 1, 5⟩ ⟨2024, 12, 31⟩ = 5 := by decide

example : diasTranscurridos ⟨2024, 10, 1⟩ ⟨2024, 10, 2⟩ = -1 := by decide

example : parseFecha "2024-10-01" = some ⟨2024, 10, 1⟩ := by decide

example : parseFecha "2024-13-01" = none := by decide

example : parseFecha "2024-02-30" = none := by decide

example : parseFecha "not-a-date" = none := by decide

/-- `ProductoTools._verificar_condiciones_adicionales` (tools.py 249-263).
The float comparison `dias > garantia_dias * 0.8` is modelled exactly as
`5 * dias > 4 * garantia_dias`: for every `garantia_dias` in the database
(30, 15, 14, 7) the IEEE-double product admits the same integers, so the
rational comparison coincides with Python's.  `precio > 500` is
`precioCents > 50000`. -/
def verificarCondicionesAdicionales (producto : Producto) (dias : Int) : String :=
  let condiciones : List String :=
    (if 5 * dias > 4 * (producto.garantia_dias : Int) then
      ["⚠️ Nota: Está cerca del límite del período de devolución."] else []) ++
    (if producto.precioCents > 50000 then
      ["💎 Producto de alto valor: Se requiere inspección adicional."] else [])
  if condiciones.isEmpty then "✅ Todas las condiciones cumplidas."
  else String.intercalate "\n" condiciones

/-- `ProductoTools.verificar_elegibilidad_producto` (tools.py 68-120).
`today` is the date of `datetime.now()`.  The function never raises: every
branch returns a message string. -/
def verificar_elegibilidad_producto (producto_id fecha_compra : String) (today : Date) : String :=
  match productos_db.lookup producto_id with
  | none => "❌ Error: El producto " ++ producto_id ++ " no existe en nuestro sistema."
  | some producto =>
    if producto.elegible_devolucion = false then
      "❌ El producto " ++ producto.nombre ++ " (" ++ producto_id
        ++ ") no es elegible para devolución según nuestras políticas."
    else
      match parseFecha fecha_compra with
      | none => "❌ Error: Formato de fecha inválido. Use YYYY-MM-DD"
      | some fecha_compra_obj =>
        let dias := diasTranscurridos today fecha_compra_obj
        if dias > (producto.garantia_dias : Int) then
          "❌ El producto " ++ producto.nombre ++ " (" ++ producto_id
            ++ ") ya no es elegible para devolución. Han transcurrido "
            ++ toString dias ++ " días desde la compra, pero el período de devolución es de "
            ++ toString producto.garantia_dias ++ " días."
        else
          "✅ El producto " ++ producto.nombre ++ " (" ++ producto_id
            ++ ") ES ELEGIBLE para devolución.\n📅 Días transcurridos: "
            ++ toString dias ++ "/" ++ toString producto.garantia_dias
            ++ "\n💰 Precio: $" ++ producto.precioStr
            ++ "\n📦 Categoría: " ++ producto.categoria
            ++ "\n" ++ verificarCondicionesAdicionales producto dias

/-! Sanity checks against the tool's behaviour. -/

example :
    verificar_elegibilidad_producto "PROD999" "2024-10-01" ⟨2024, 10, 20⟩
      = "❌ Error: El producto PROD999 no existe en nuestro sistema." := by decide

example :
    verificar_elegibilidad_producto "PROD001" "fecha-mala" ⟨2024, 10, 20⟩
      = "❌ Error: Formato de fecha inválido. Use YYYY-MM-DD" := by decide

example :
    verificar_elegibilidad_producto "PROD004" "2024-10-01" ⟨2024, 10, 2⟩
      = "❌ El producto Tablet EcoPad (PROD004) no es elegible para devolución según nuestras políticas." := by
  decide

example :
    verificar_elegibilidad_producto "PROD001" "2024-10-01" ⟨2024, 12, 1⟩
      = "❌ El producto Smartphone EcoTech Pro (PROD001) ya no es elegible para devolución. Han transcurrido 61 días desde la compra, pero el período de devolución es de 30 días." := by
  decide

example :
    verificar_elegibilidad_producto "PROD001" "2024-10-01" ⟨2024, 10, 11⟩
      = "✅ El producto Smartphone EcoTech Pro (PROD001) ES ELEGIBLE para devolución.\n📅 Días transcurridos: 10/30\n💰 Precio: $299.99\n📦 Categoría: Electrónicos\n✅ Todas las condiciones cumplidas." := by
  decide

/-! ### Properties of the eligibility tool (claims C7, C8) -/

lemma containsSub_of_middle (n p q : List Char) :
    containsSub n (p ++ (n ++ q)) = true := by
  apply List.any_eq_true.mpr
  refine ⟨n ++ q, ?_, ?_⟩
  · exact (List.mem_tails _ _).mpr (List.suffix_append p (n ++ q))
  · exact List.isPrefixOf_iff_prefix.mpr (List.prefix_append n q)

lemma strStartsWith_append (p s t : String) (h : strStartsWith p s = true) :
    strStartsWith p (s ++ t) = true := by
  simp only [strStartsWith, String.data_append]
  exact List.isPrefixOf_iff_prefix.mpr
    ((List.isPrefixOf_iff_prefix.mp h).trans (List.prefix_append s.data t.data))

lemma startsWith_cross_false {s : String} (h : strStartsWith "❌" s = true) :
    strStartsWith "✅" s = false := by
  have h2 : "❌".data = ['❌'] := rfl
  have h3 : "✅".data = ['✅'] := rfl
  cases hs : s.data with
  | nil =>
    rw [strStartsWith, h2, hs] at h
    exact absurd h (by decide)
  | cons c cs =>
    rw [strStartsWith, h2, hs] at h
    rw [strStartsWith, h3, hs]
    simp only [List.isPrefixOf, Bool.and_eq_true, beq_iff_eq] at h
    rcases h with ⟨rfl, -⟩
    simp [List.isPrefixOf]

/-- Every branch of `verificar_elegibilidad_producto` returns a message
marked either "✅" (success) or "❌" (error): the two classes are
distinguishable by their first character. -/
lemma verificar_marks (pid fecha : String) (t : Date) :
    strStartsWith "✅" (verificar_elegibilidad_producto pid fecha t) = true
      ∨ strStartsWith "❌" (verificar_elegibilidad_producto pid fecha t) = true := by
  unfold verificar_elegibilidad_producto
  rcases productos_db.lookup pid with _ | producto
  · refine Or.inr ?_
    repeat refine strStartsWith_append _ _ _ ?_
    decide
  · simp only
    by_cases he : producto.elegible_devolucion = false
    · rw [if_pos he]
      refine Or.inr ?_
      repeat refine strStartsWith_append _ _ _ ?_
      decide
    · rw [if_neg he]
      rcases parseFecha fecha with _ | fc
      · refine Or.inr ?_
        show strStartsWith "❌" "❌ Error: Formato de fecha inválido. Use YYYY-MM-DD" = true
        decide
      · simp only
        by_cases hd : diasTranscurridos t fc > (producto.garantia_dias : Int)
        · rw [if_pos hd]
          refine Or.inr ?_
          repeat refine strStartsWith_append _ _ _ ?_
          decide
        · rw [if_neg hd]
          refine Or.inl ?_
          repeat refine strStartsWith_append _ _ _ ?_
          decide

/-- C7: for every `producto_id` missing from the product database and every
purchase-date string, `verificar_elegibilidad_producto` returns (never
raises) the fixed error text, which mentions the id, is marked "❌", and is
distinguishable from a success message (every output of the tool starts
with "✅" or "❌", and this one does not start with "✅"). -/
theorem verificar_unknown_product_spec (pid fecha : String) (today : Date)
    (h : productos_db.lookup pid = none) :
    verificar_elegibilidad_producto pid fecha today
      = "❌ Error: El producto " ++ pid ++ " no existe en nuestro sistema." ∧
    containsSub pid.data (verificar_elegibilidad_producto pid fecha today).data = true ∧
    strStartsWith "❌" (verificar_elegibilidad_producto pid fecha today) = true ∧
    strStartsWith "✅" (verificar_elegibilidad_producto pid fecha today) = false ∧
    (∀ (pid2 fecha2 : String) (t2 : Date),
      strStartsWith "✅" (verificar_elegibilidad_producto pid2 fecha2 t2) = true
        ∨ strStartsWith "❌" (verificar_elegibilidad_producto pid2 fecha2 t2) = true) := by
  have e1 : verificar_elegibilidad_producto pid fecha today
      = "❌ Error: El producto " ++ pid ++ " no existe en nuestro sistema." := by
    unfold verificar_elegibilidad_producto
    rw [h]
  have e2 : verificar_elegibilidad_producto pid fecha today
      = "❌ Error: El producto " ++ (pid ++ " no existe en nuestro sistema.") := by
    rw [e1, String.append_assoc]
  have hmark : strStartsWith "❌" (verificar_elegibilidad_producto pid fecha today) = true := by
    rw [e2]
    refine strStartsWith_append _ _ _ ?_
    decide
  refine ⟨e1, ?_, hmark, startsWith_cross_false hmark,
    fun pid2 fecha2 t2 => verificar_marks pid2 fecha2 t2⟩
  rw [e2]
  simp only [String.data_append]
  exact containsSub_of_middle pid.data _ _

/-- C7 witness: the unknown id "PROD999" at a concrete date. -/
theorem verificar_unknown_product_witness :
    verificar_elegibilidad_producto "PROD999" "2024-10-01" ⟨2024, 10, 20⟩
      = "❌ Error: El producto " ++ "PROD999" ++ " no existe en nuestro sistema." ∧
    containsSub "PROD999".data
      (verificar_elegibilidad_producto "PROD999" "2024-10-01" ⟨2024, 10, 20⟩).data = true ∧
    strStartsWith "❌"
      (verificar_elegibilidad_producto "PROD999" "2024-10-01" ⟨2024, 10, 20⟩) = true ∧
    strStartsWith "✅"
      (verificar_elegibilidad_producto "PROD999" "2024-10-01" ⟨2024, 10, 20⟩) = false ∧
    (∀ (pid2 fecha2 : String) (t2 : Date),
      strStartsWith "✅" (verificar_elegibilidad_producto pid2 fecha2 t2) = true
        ∨ strStartsWith "❌" (verificar_elegibilidad_producto pid2 fecha2 t2) = true) :=
  verificar_unknown_product_spec "PROD999" "2024-10-01" ⟨2024, 10, 20⟩ (by decide)

lemma containsSub_append_left (n p h : List Char) (hc : containsSub n h = true) :
    containsSub n (p ++ h) = true := by
  rcases List.any_eq_true.mp hc with ⟨t, ht, hpre⟩
  refine List.any_eq_true.mpr ⟨t, ?_, hpre⟩
  exact (List.mem_tails _ _).mpr (((List.mem_tails _ _).mp ht).trans (List.suffix_append p h))

lemma containsSub_self_append (n q : List Char) : containsSub n (n ++ q) = true := by
  refine List.any_eq_true.mpr ⟨n ++ q, ?_, ?_⟩
  · exact (List.mem_tails _ _).mpr (List.suffix_refl _)
  · exact List.isPrefixOf_iff_prefix.mpr (List.prefix_append n q)

/-- C8: for product PROD001 (30-day window) and every well-formed purchase
date whose elapsed days to the reference "today" exceed 30, the tool
returns the non-eligibility message, which states the elapsed-day count
and the allowed 30-day period. -/
theorem verificar_PROD001_expired_spec (fecha : String) (today fc : Date)
    (hp : parseFecha fecha = some fc)
    (hd : diasTranscurridos today fc > 30) :
    verificar_elegibilidad_producto "PROD001" fecha today
      = "❌ El producto " ++ "Smartphone EcoTech Pro" ++ " (" ++ "PROD001"
        ++ ") ya no es elegible para devolución. Han transcurrido "
        ++ toString (diasTranscurridos today fc)
        ++ " días desde la compra, pero el período de devolución es de "
        ++ toString (30 : Nat) ++ " días." ∧
    containsSub (toString (diasTranscurridos today fc)).data
      (verificar_elegibilidad_producto "PROD001" fecha today).data = true ∧
    containsSub "30 días".data
      (verificar_elegibilidad_producto "PROD001" fecha today).data = true := by
  have hd' : diasTranscurridos today fc >
      ((30 : Nat) : Int) := by exact_mod_cast hd
  have e : verificar_elegibilidad_producto "PROD001" fecha today
      = "❌ El producto " ++ "Smartphone EcoTech Pro" ++ " (" ++ "PROD001"
        ++ ") ya no es elegible para devolución. Han transcurrido "
        ++ toString (diasTranscurridos today fc)
        ++ " días desde la compra, pero el período de devolución es de "
        ++ toString (30 : Nat) ++ " días." := by
    unfold verificar_elegibilidad_producto
    rw [show productos_db.lookup "PROD001"
        = some ⟨"Smartphone EcoTech Pro", "Electrónicos", "299.99", 29999, 30, true⟩ from rfl]
    simp only [hp]
    rw [if_neg (by decide), if_pos hd']
  refine ⟨e, ?_, ?_⟩
  · rw [e]
    simp only [String.data_append, List.append_assoc]
    iterate 5 refine containsSub_append_left _ _ _ ?_
    exact containsSub_self_append _ _
  · rw [e]
    simp only [String.data_append, List.append_assoc]
    iterate 6 refine containsSub_append_left _ _ _ ?_
    decide

/-- C8 witness: purchase 2024-10-01 seen from 2024-12-01 (61 days). -/
theorem verificar_PROD001_expired_witness :
    verificar_elegibilidad_producto "PROD001" "2024-10-01" ⟨2024, 12, 1⟩
      = "❌ El producto " ++ "Smartphone EcoTech Pro" ++ " (" ++ "PROD001"
        ++ ") ya no es elegible para devolución. Han transcurrido "
        ++ toString (diasTranscurridos ⟨2024, 12, 1⟩ ⟨2024, 10, 1⟩)
        ++ " días desde la compra, pero el período de devolución es de "
        ++ toString (30 : Nat) ++ " días." ∧
    containsSub (toString (diasTranscurridos ⟨2024, 12, 1⟩ ⟨2024, 10, 1⟩)).data
      (verificar_elegibilidad_producto "PROD001" "2024-10-01" ⟨2024, 12, 1⟩).data = true ∧
    containsSub "30 días".data
      (verificar_elegibilidad_producto "PROD001" "2024-10-01" ⟨2024, 12, 1⟩).data = true :=
  verificar_PROD001_expired_spec "2024-10-01" ⟨2024, 12, 1⟩ ⟨2024, 10, 1⟩
    (by decide) (by decide)

/-! ### `EcoAgent` statistics and `process_query` (eco_agent.py) -/

/-- The `self.stats` dictionary of `EcoAgent` (eco_agent.py 120-125):
`total_interactions`, `tools_used` (written nowhere after init),
`successful_interactions`, `errors`. -/
structure Stats where
  total_interactions : Nat
  tools_used : List (String × Nat)
  successful_interactions : Nat
  errors : Nat
deriving Repr, DecidableEq

/-- The stats value of `EcoAgent.__init__` (eco_agent.py 120-125) and of
`EcoAgent.reset_stats` (eco_agent.py 372-380). -/
def reset_stats : Stats := ⟨0, [], 0, 0⟩

/-- The structured result of `EcoAgent.process_query` (the fields the
claims speak about; `timestamp` and `user_input` are carried through). -/
structure ProcessResult where
  response : String
  user_input : String
  agent_status : String
  error : Option String
  stats : Stats
deriving Repr, DecidableEq

/-- `EcoAgent.process_query` (eco_agent.py 277-329).  The one failure point
inside the `try` block is `self.agent.run(...)`: `agentOutcome` is `none`
when `self.agent` is `None`, `some (.ok r)` when the run returns `r`, and
`some (.error e)` when it raises `e` (caught by the `except` branch, which
increments `errors`; the success path increments `successful_interactions`;
both happen after `total_interactions += 1`). -/
def process_query (agentOutcome : Option (Except String String))
    (user_input : String) (s : Stats) : ProcessResult :=
  let s1 : Stats := { s with total_interactions := s.total_interactions + 1 }
  match agentOutcome with
  | some (.error e) =>
    let s2 : Stats := { s1 with errors := s1.errors + 1 }
    { response := "Lo siento, ocurrió un error al procesar tu consulta: " ++ e,
      user_input := user_input,
      agent_status := "error",
      error := some e,
      stats := s2 }
  | some (.ok response) =>
    let s2 : Stats := { s1 with successful_interactions := s1.successful_interactions + 1 }
    { response := response,
      user_input := user_input,
      agent_status := "success",
      error := none,
      stats := s2 }
  | none =>
    let s2 : Stats := { s1 with successful_interactions := s1.successful_interactions + 1 }
    { response := "Lo siento, el agente no está disponible en este momento.",
      user_input := user_input,
      agent_status := "success",
      error := none,
      stats := s2 }

/-- The result fields of `EcoAgent.get_stats` (eco_agent.py 361-370);
`error_rate` is Python's float division, modelled exactly on rationals. -/
structure StatsView where
  total_interactions : Nat
  successful_interactions : Nat
  error_rate : ℚ
  tools_available : Nat
  rag_available : Bool
  model_type : String
deriving Repr, DecidableEq

/-- `EcoAgent.get_stats` (eco_agent.py 361-370). -/
def get_stats (s : Stats) (tools_count : Nat) (rag_available : Bool)
    (use_simulated_model : Bool) : StatsView :=
  { total_interactions := s.total_interactions,
    successful_interactions := s.successful_interactions,
    error_rate := (s.errors : ℚ) / (max s.total_interactions 1 : Nat),
    tools_available := tools_count,
    rag_available := rag_available,
    model_type := if use_simulated_model then "simulated" else "openai" }

/-- The invariant of claim C2: `total_interactions` counts exactly the
successes plus the errors. -/
def statsInv (s : Stats) : Prop :=
  s.total_interactions = s.successful_interactions + s.errors

/-- A whole session: fold `process_query` over a list of agent outcomes,
starting from freshly initialised (= reset) stats. -/
def processSession (outcomes : List (Option (Except String String))) : Stats :=
  outcomes.foldl (fun s o => (process_query o "" s).stats) reset_stats

lemma statsInv_process (o : Option (Except String String)) (u : String) (s : Stats)
    (h : statsInv s) : statsInv (process_query o u s).stats := by
  rcases o with _ | o
  · simp only [process_query, statsInv] at h ⊢
    omega
  · rcases o with e | r <;>
      (simp only [process_query, statsInv] at h ⊢; omega)

lemma statsInv_foldl (l : List (Option (Except String String))) :
    ∀ s : Stats, statsInv s →
      statsInv (l.foldl (fun s o => (process_query o "" s).stats) s) := by
  induction l with
  | nil => intro s h; exact h
  | cons o l ih =>
    intro s h
    exact ih _ (statsInv_process o "" s h)

/-- C2: `process_query` increments `total_interactions` by one on every
call, increments exactly one of `successful_interactions` / `errors`
(whether the agent run returns or raises), so the invariant
`total = successes + errors` is preserved, and holds after any session
started from freshly initialised (reset) stats. -/
theorem process_query_stats_invariant (o : Option (Except String String))
    (u : String) (s : Stats) (h : statsInv s) :
    statsInv (process_query o u s).stats ∧
    (process_query o u s).stats.successful_interactions
        + (process_query o u s).stats.errors
      = s.successful_interactions + s.errors + 1 ∧
    (process_query o u s).stats.total_interactions = s.total_interactions + 1 ∧
    (∀ outcomes : List (Option (Except String String)),
      statsInv (processSession outcomes)) := by
  refine ⟨statsInv_process o u s h, ?_, ?_, ?_⟩
  · rcases o with _ | o
    · simp only [process_query]
      omega
    · rcases o with e | r <;> (simp only [process_query]; omega)
  · rcases o with _ | o
    · simp [process_query]
    · rcases o with e | r <;> simp [process_query]
  · intro outcomes
    exact statsInv_foldl outcomes reset_stats rfl

/-- C2 witness: one succeeding call and one raising call from a state
satisfying the invariant. -/
theorem process_query_stats_invariant_witness :
    statsInv (process_query (some (Except.error "boom")) "q" ⟨2, [], 1, 1⟩).stats ∧
    (process_query (some (Except.error "boom")) "q" ⟨2, [], 1, 1⟩).stats.successful_interactions
        + (process_query (some (Except.error "boom")) "q" ⟨2, [], 1, 1⟩).stats.errors
      = 1 + 1 + 1 ∧
    (process_query (some (Except.error "boom")) "q" ⟨2, [], 1, 1⟩).stats.total_interactions
      = 2 + 1 ∧
    (∀ outcomes : List (Option (Except String String)),
      statsInv (processSession outcomes)) :=
  process_query_stats_invariant (some (Except.error "boom")) "q" ⟨2, [], 1, 1⟩ rfl

/-- C10: `get_stats` divides by `max(total_interactions, 1)`, which is
positive, so `error_rate` is always defined; whenever no interaction has
been processed (under the stats invariant) the rate is 0. -/
theorem get_stats_error_rate_spec (s : Stats) (tc : Nat) (ra us : Bool) :
    (get_stats s tc ra us).error_rate
      = (s.errors : ℚ) / ((max s.total_interactions 1 : Nat) : ℚ) ∧
    0 < max s.total_interactions 1 ∧
    (get_stats reset_stats tc ra us).error_rate = 0 ∧
    (statsInv s → s.total_interactions = 0 →
      (get_stats s tc ra us).error_rate = 0) := by
  refine ⟨rfl, ?_, ?_, ?_⟩
  · have := Nat.le_max_right s.total_interactions 1
    omega
  · simp [get_stats, reset_stats]
  · intro h h0
    have herr : s.errors = 0 := by
      simp only [statsInv] at h
      omega
    simp [get_stats, herr]

/-! ### Claim C5: a query about a non-existent product id -/

lemma verificar_unknown_eq (pid fecha : String) (today : Date)
    (h : productos_db.lookup pid = none) :
    verificar_elegibilidad_producto pid fecha today
      = "❌ Error: El producto " ++ pid ++ " no existe en nuestro sistema." := by
  unfold verificar_elegibilidad_producto
  rw [h]

lemma verificar_unknown_contains (pid fecha : String) (today : Date)
    (h : productos_db.lookup pid = none) :
    containsSub pid.data (verificar_elegibilidad_producto pid fecha today).data = true := by
  rw [verificar_unknown_eq pid fecha today h, String.append_assoc]
  simp only [String.data_append]
  exact containsSub_of_middle pid.data _ _

/-- C5 counterexample: querying the non-existent id "PROD999" — with the
agent run returning the eligibility tool's output, the only deterministic
path from `process_query` to the tool — yields `agent_status = "success"`,
not `"error"`, and leaves `Stats.errors` at 0 instead of incrementing it,
although the response text does contain the id. -/
theorem process_query_unknown_product_cex :
    (process_query
        (some (Except.ok (verificar_elegibilidad_producto "PROD999" "2024-10-01" ⟨2024, 10, 20⟩)))
        "¿Puedo devolver el producto PROD999?" reset_stats).agent_status = "success" ∧
    (process_query
        (some (Except.ok (verificar_elegibilidad_producto "PROD999" "2024-10-01" ⟨2024, 10, 20⟩)))
        "¿Puedo devolver el producto PROD999?" reset_stats).agent_status ≠ "error" ∧
    (process_query
        (some (Except.ok (verificar_elegibilidad_producto "PROD999" "2024-10-01" ⟨2024, 10, 20⟩)))
        "¿Puedo devolver el producto PROD999?" reset_stats).stats.errors = 0 ∧
    containsSub "PROD999".data
      (process_query
        (some (Except.ok (verificar_elegibilidad_producto "PROD999" "2024-10-01" ⟨2024, 10, 20⟩)))
        "¿Puedo devolver el producto PROD999?" reset_stats).response.data = true := by
  decide

/-- C5 (amended): processing a query about a non-existent product id,
with the agent run returning the eligibility tool's output, yields a
response that contains the id, but with `agent_status = "success"` and
`errors` unchanged (`successful_interactions` is the counter incremented):
the tool's failure is reported only inside the text. -/
theorem process_query_unknown_product_spec (pid fecha uq : String) (today : Date)
    (s : Stats) (h : productos_db.lookup pid = none) :
    (process_query (some (Except.ok (verificar_elegibilidad_producto pid fecha today)))
        uq s).agent_status = "success" ∧
    (process_query (some (Except.ok (verificar_elegibilidad_producto pid fecha today)))
        uq s).stats.errors = s.errors ∧
    (process_query (some (Except.ok (verificar_elegibilidad_producto pid fecha today)))
        uq s).stats.successful_interactions = s.successful_interactions + 1 ∧
    (process_query (some (Except.ok (verificar_elegibilidad_producto pid fecha today)))
        uq s).stats.total_interactions = s.total_interactions + 1 ∧
    containsSub pid.data
      (process_query (some (Except.ok (verificar_elegibilidad_producto pid fecha today)))
        uq s).response.data = true := by
  refine ⟨rfl, rfl, rfl, rfl, ?_⟩
  exact verificar_unknown_contains pid fecha today h

/-- C5 witness: the amended statement at the concrete id "PROD999". -/
theorem process_query_unknown_product_witness :
    (process_query
        (some (Except.ok (verificar_elegibilidad_producto "PROD999" "2024-01-01" ⟨2024, 1, 2⟩)))
        "q" reset_stats).agent_status = "success" ∧
    (process_query
        (some (Except.ok (verificar_elegibilidad_producto "PROD999" "2024-01-01" ⟨2024, 1, 2⟩)))
        "q" reset_stats).stats.errors = reset_stats.errors ∧
    (process_query
        (some (Except.ok (verificar_elegibilidad_producto "PROD999" "2024-01-01" ⟨2024, 1, 2⟩)))
        "q" reset_stats).stats.successful_interactions
      = reset_stats.successful_interactions + 1 ∧
    (process_query
        (some (Except.ok (verificar_elegibilidad_producto "PROD999" "2024-01-01" ⟨2024, 1, 2⟩)))
        "q" reset_stats).stats.total_interactions = reset_stats.total_interactions + 1 ∧
    containsSub "PROD999".data
      (process_query
        (some (Except.ok (verificar_elegibilidad_producto "PROD999" "2024-01-01" ⟨2024, 1, 2⟩)))
        "q" reset_stats).response.data = true :=
  process_query_unknown_product_spec "PROD999" "2024-01-01" "q" ⟨2024, 1, 2⟩ reset_stats
    (by decide)

/-! ### `EcoRAGPipeline` (rag_pipeline.py): vector store, simulated LLM, `query` -/

/-- The vector store held by the pipeline: either a real FAISS index
(opaque here) or the `SimulatedVectorStore` over its document list. -/
inductive VectorStore where
  | faiss (handle : Nat)
  | simulated (documents : List Doc)
deriving Repr, DecidableEq

/-- `EcoRAGPipeline.create_vectorstore` (rag_pipeline.py 192-214):
with real embeddings configured it calls `FAISS.from_documents` inside
`try`; on failure (`faiss_from_documents` returns `.error`) the `except`
branch builds the simulated store over the same documents (`documents or
[]` equals `documents`, which is always a list at that point).  With
`use_simulated_model` or absent embeddings it builds the simulated store
directly. -/
def create_vectorstore (use_simulated_model embeddings_present : Bool)
    (faiss_from_documents : List Doc → Except String VectorStore)
    (documents : List Doc) : VectorStore :=
  if use_simulated_model = false && embeddings_present then
    match faiss_from_documents documents with
    | .ok vs => vs
    | .error _ => VectorStore.simulated documents
  else VectorStore.simulated documents

/-- `SimulatedLLM.__call__` of `EcoRAGPipeline._create_simulated_llm`
(rag_pipeline.py 331-350): keyword classification on the lowercased
prompt, in the source's priority order. -/
def simulatedLLM (prompt : String) : String :=
  let prompt_lower := (pyLower prompt).data
  if containsSub "devolución".data prompt_lower
      || containsSub "devolver".data prompt_lower then
    "Para procesar una devolución, necesito verificar la elegibilidad del producto y generar una etiqueta de devolución."
  else if containsSub "política".data prompt_lower then
    "Las políticas de devolución varían según la categoría del producto. Los electrónicos tienen 30 días, computadoras 15 días, audio 14 días y tablets 7 días."
  else if containsSub "soporte".data prompt_lower
      || containsSub "ayuda".data prompt_lower then
    "Puedo ayudarte con consultas sobre devoluciones, información de productos y políticas de la empresa."
  else
    "Soy EcoAgent, tu asistente para devoluciones. ¿En qué puedo ayudarte?"

/-- What `EcoRAGPipeline.query` returns: the `result` text and the
`source_documents`. -/
structure QAResult where
  result : String
  source_documents : List Doc
deriving Repr, DecidableEq

/-- `SimulatedQAChain.run` (rag_pipeline.py 352-374): retrieve with `k=2`
when a retriever is attached, answer with the simulated LLM. -/
def simulatedQAChainRun (retriever : Option (List Doc)) (query : String) : QAResult :=
  let docs := match retriever with
    | some corpus => similarity_search corpus query 2
    | none => []
  { result := simulatedLLM query, source_documents := docs }

/-- `EcoRAGPipeline.query` (rag_pipeline.py 376-410).  `qa_chain` is the
chain held by the pipeline (`none` models `self.qa_chain` being unset);
the chain call returns `.error e` where Python raises `e`, which the
`except` branch turns into the error-text result — the function itself is
total and never propagates a failure. -/
def EcoRAGPipeline.query (qa_chain : Option (String → Except String QAResult))
    (question : String) : QAResult :=
  match qa_chain with
  | some chain =>
    match chain question with
    | .ok result => result
    | .error e =>
      { result := "Error al procesar la consulta: " ++ e, source_documents := [] }
  | none =>
    { result := "Lo siento, el sistema RAG no está disponible en este momento.",
      source_documents := [] }

lemma append_ne_empty_left (s t : String) (h : s ≠ "") : s ++ t ≠ "" := by
  intro habs
  apply h
  have hd : s.data ++ t.data = [] := by
    have := congrArg String.data habs
    rwa [String.data_append] at this
  rcases List.append_eq_nil.mp hd with ⟨h1, -⟩
  cases s
  simp_all

/-- C6: with the fallback `SimulatedLLM` chain (any retriever), with no
chain at all, and with a chain whose backend raises, `EcoRAGPipeline.query`
always returns non-empty text and never lets the failure escape. -/
theorem rag_query_nonempty_spec (question : String) (retriever : Option (List Doc)) :
    (EcoRAGPipeline.query
        (some fun q => Except.ok (simulatedQAChainRun retriever q)) question).result ≠ "" ∧
    (EcoRAGPipeline.query none question).result ≠ "" ∧
    (∀ e : String,
      (EcoRAGPipeline.query (some fun _ => Except.error e) question).result ≠ "") := by
  refine ⟨?_, ?_, ?_⟩
  · show (simulatedQAChainRun retriever question).result ≠ ""
    show simulatedLLM question ≠ ""
    unfold simulatedLLM
    dsimp only
    split_ifs <;> decide
  · show ("Lo siento, el sistema RAG no está disponible en este momento." : String) ≠ ""
    decide
  · intro e
    show "Error al procesar la consulta: " ++ e ≠ ""
    exact append_ne_empty_left _ _ (by decide)

/-- C4 counterexample: a backend failure during a query is caught but the
lexical fallback is not re-executed — on the corpus holding one document
about "política", the fallback scorer returns that document, while
`EcoRAGPipeline.query` returns the error text with no source documents. -/
theorem rag_query_backend_failure_cex :
    EcoRAGPipeline.query (some fun _ => Except.error "network error") "política"
      = { result := "Error al procesar la consulta: " ++ "network error",
          source_documents := [] } ∧
    similarity_search [⟨"política de devolución", "politicas"⟩] "política" 4
      = [⟨"política de devolución", "politicas"⟩] ∧
    (EcoRAGPipeline.query (some fun _ => Except.error "network error") "política").source_documents
      ≠ similarity_search [⟨"política de devolución", "politicas"⟩] "política" 4 := by
  decide

/-- C4 (amended): a backend failure at index-construction time falls back
to the lexical simulated store; a backend failure during a query call is
caught and answered with an error-text result with empty source documents
(the lexical fallback is not re-executed for that call); in neither case
does the error propagate. -/
theorem rag_backend_failure_spec (docs : List Doc) (err : String)
    (faiss_from_documents : List Doc → Except String VectorStore)
    (h : faiss_from_documents docs = Except.error err) :
    create_vectorstore false true faiss_from_documents docs
      = VectorStore.simulated docs ∧
    (∀ (e question : String),
      EcoRAGPipeline.query (some fun _ => Except.error e) question
        = { result := "Error al procesar la consulta: " ++ e,
            source_documents := [] }) := by
  constructor
  · simp [create_vectorstore, h]
  · intro e question
    rfl

/-- C4 witness: a concrete failing backend over a one-document corpus. -/
theorem rag_backend_failure_witness :
    create_vectorstore false true
        (fun _ => Except.error "auth error") [⟨"política de devolución", "politicas"⟩]
      = VectorStore.simulated [⟨"política de devolución", "politicas"⟩] ∧
    (∀ (e question : String),
      EcoRAGPipeline.query (some fun _ => Except.error e) question
        = { result := "Error al procesar la consulta: " ++ e,
            source_documents := [] }) :=
  rag_backend_failure_spec [⟨"política de devolución", "politicas"⟩] "auth error"
    (fun _ => Except.error "auth error") rfl

/-! ### Claim C3: the bounded reasoning loop (spec §4.4) -/

/-- One reasoning decision: select a capability with arguments, or emit
the final answer (spec §4.4 / §3 Event). -/
inductive Decision where
  | act (tool args rationale : String)
  | finish (output rationale : String)
deriving Repr, DecidableEq

/-- Outcome of one query's reasoning loop: the answer text, how many
reasoning steps were performed, and whether the iteration cap ended the
loop. -/
structure LoopOut where
  output : String
  steps : Nat
  maxIterationsReached : Bool
deriving Repr, DecidableEq

/-- Modelled from the spec: the reasoning loop is executed by the
LangChain `AgentExecutor` that `initialize_agent` returns (eco_agent.py
238-246), whose code is not among this repository's sources; spec §4.4
defines it as the state machine `Reasoning → (ActionDispatch →
Reasoning)* → Finished | MaxIterationsReached` with bounded iteration
count `N`.  `reason` is the reasoning strategy deciding from the context
so far, `dispatch` invokes the selected capability and its observation is
folded back into the context; when `N` reasoning steps pass without a
final answer the loop stops and returns the best available partial
answer — the last capability result, or a generic message if none. -/
def runLoop (dispatch : String → String → String)
    (reason : List String → Decision) :
    Nat → List String → Option String → LoopOut
  | 0, _, last =>
    { output := match last with
        | some r => r
        | none => "Agent stopped due to iteration limit.",
      steps := 0,
      maxIterationsReached := true }
  | budget + 1, history, _ =>
    match reason history with
    | .finish out _ =>
      { output := out, steps := 1, maxIterationsReached := false }
    | .act tool args _ =>
      let obs := dispatch tool args
      let rest := runLoop dispatch reason budget (history ++ [obs]) (some obs)
      { rest with steps := rest.steps + 1 }

/-- `AGENT_MAX_ITERATIONS` (config.py line 13). -/
def AGENT_MAX_ITERATIONS : Nat := 5

/-- The literal `max_iterations=5` that `EcoAgent.create_agent` passes to
`initialize_agent` (eco_agent.py line 244): the bound is fixed when the
agent is constructed. -/
def create_agent_max_iterations : Nat := 5

lemma runLoop_steps_le (dispatch : String → String → String)
    (reason : List String → Decision) :
    ∀ (n : Nat) (history : List String) (last : Option String),
      (runLoop dispatch reason n history last).steps ≤ n := by
  intro n
  induction n with
  | zero => intro history last; exact Nat.le_refl 0
  | succ n ih =>
    intro history last
    simp only [runLoop]
    rcases reason history with ⟨tool, args, r⟩ | ⟨out, r⟩
    · have h1 := ih (history ++ [dispatch tool args]) (some (dispatch tool args))
      dsimp only
      omega
    · dsimp only
      omega

lemma runLoop_pathological (dispatch : String → String → String)
    (reason : List String → Decision)
    (h : ∀ hist : List String, ∃ tool args rationale,
      reason hist = Decision.act tool args rationale) :
    ∀ (n : Nat) (history : List String) (last : Option String),
      (runLoop dispatch reason n history last).steps = n ∧
      (runLoop dispatch reason n history last).maxIterationsReached = true := by
  intro n
  induction n with
  | zero => intro history last; exact ⟨rfl, rfl⟩
  | succ n ih =>
    intro history last
    rcases h history with ⟨tool, args, rationale, hr⟩
    simp only [runLoop, hr]
    constructor
    · simpa using (ih (history ++ [dispatch tool args]) (some (dispatch tool args))).1
    · simpa using (ih (history ++ [dispatch tool args]) (some (dispatch tool args))).2

/-- C3: the loop never performs more reasoning steps than its bound; a
pathological strategy that never finishes runs for exactly
`AGENT_MAX_ITERATIONS = 5` steps and ends in the max-iterations state;
the bound passed at agent construction is that same constant 5. -/
theorem agent_loop_bounded_spec (dispatch : String → String → String)
    (reason : List String → Decision) (history : List String)
    (h : ∀ hist : List String, ∃ tool args rationale,
      reason hist = Decision.act tool args rationale) :
    (∀ (d : String → String → String) (r : List String → Decision)
        (n : Nat) (hist : List String) (last : Option String),
      (runLoop d r n hist last).steps ≤ n) ∧
    (runLoop dispatch reason AGENT_MAX_ITERATIONS history none).steps = 5 ∧
    (runLoop dispatch reason AGENT_MAX_ITERATIONS history none).maxIterationsReached = true ∧
    create_agent_max_iterations = AGENT_MAX_ITERATIONS ∧
    AGENT_MAX_ITERATIONS = 5 := by
  refine ⟨fun d r n hist last => runLoop_steps_le d r n hist last, ?_, ?_, rfl, rfl⟩
  · exact (runLoop_pathological dispatch reason h AGENT_MAX_ITERATIONS history none).1
  · exact (runLoop_pathological dispatch reason h AGENT_MAX_ITERATIONS history none).2

/-- C3 witness: the strategy that always picks the RAG capability. -/
theorem agent_loop_bounded_witness :
    (∀ (d : String → String → String) (r : List String → Decision)
        (n : Nat) (hist : List String) (last : Option String),
      (runLoop d r n hist last).steps ≤ n) ∧
    (runLoop (fun _ _ => "obs") (fun _ => Decision.act "Consulta RAG" "q" "r")
        AGENT_MAX_ITERATIONS ["query"] none).steps = 5 ∧
    (runLoop (fun _ _ => "obs") (fun _ => Decision.act "Consulta RAG" "q" "r")
        AGENT_MAX_ITERATIONS ["query"] none).maxIterationsReached = true ∧
    create_agent_max_iterations = AGENT_MAX_ITERATIONS ∧
    AGENT_MAX_ITERATIONS = 5 :=
  agent_loop_bounded_spec (fun _ _ => "obs") (fun _ => Decision.act "Consulta RAG" "q" "r")
    ["query"] (fun _ => ⟨"Consulta RAG", "q", "r", rfl⟩)

/-! ### `EcoAgentLogger` (eco_agent.py 44-90): event-log lines (claim C9) -/

/-- The value of `datetime.now()` as the logger reads it through
`.isoformat()`. -/
structure DateTime where
  year : Nat
  month : Nat
  day : Nat
  hour : Nat
  minute : Nat
  second : Nat
  microsecond : Nat
deriving Repr, DecidableEq

/-- Field ranges `datetime` guarantees for any `datetime.now()` value. -/
def validDT (dt : DateTime) : Prop :=
  1 ≤ dt.year ∧ dt.year ≤ 9999 ∧ 1 ≤ dt.month ∧ dt.month ≤ 12 ∧
  1 ≤ dt.day ∧ dt.day ≤ 31 ∧ dt.hour ≤ 23 ∧ dt.minute ≤ 59 ∧
  dt.second ≤ 59 ∧ dt.microsecond ≤ 999999

/-- The decimal digit character of `k % 10`. -/
def digitChar (k : Nat) : Char := Char.ofNat (48 + k % 10)

/-- Zero-padded two-digit decimal (`%02d`, exact for n ≤ 99). -/
def pad2 (n : Nat) : List Char := [digitChar (n / 10), digitChar n]

/-- Zero-padded four-digit decimal (`%04d`, exact for n ≤ 9999). -/
def pad4 (n : Nat) : List Char :=
  [digitChar (n / 1000), digitChar (n / 100), digitChar (n / 10), digitChar n]

/-- Zero-padded six-digit decimal (`%06d`, exact for n ≤ 999999). -/
def pad6 (n : Nat) : List Char :=
  [digitChar (n / 100000), digitChar (n / 10000), digitChar (n / 1000),
   digitChar (n / 100), digitChar (n / 10), digitChar n]

/-- `datetime.isoformat()`: `YYYY-MM-DDTHH:MM:SS` plus `.ffffff` exactly
when the microsecond field is nonzero. -/
def isoformat (dt : DateTime) : String :=
  ⟨pad4 dt.year ++ '-' :: pad2 dt.month ++ '-' :: pad2 dt.day
    ++ 'T' :: pad2 dt.hour ++ ':' :: pad2 dt.minute ++ ':' :: pad2 dt.second
    ++ (if dt.microsecond = 0 then [] else '.' :: pad6 dt.microsecond)⟩

/-- Recogniser for the ISO-8601 timestamp shapes `isoformat` can emit. -/
def isIso8601 (s : String) : Bool :=
  match s.data with
  | y1 :: y2 :: y3 :: y4 :: '-' :: m1 :: m2 :: '-' :: d1 :: d2 :: 'T'
      :: h1 :: h2 :: ':' :: i1 :: i2 :: ':' :: s1 :: s2 :: rest =>
    [y1, y2, y3, y4, m1, m2, d1, d2, h1, h2, i1, i2, s1, s2].all Char.isDigit &&
    (match rest with
     | [] => true
     | '.' :: u1 :: u2 :: u3 :: u4 :: u5 :: u6 :: [] =>
       [u1, u2, u3, u4, u5, u6].all Char.isDigit
     | _ => false)
  | _ => false

/-- The opening brace of a serialised JSON object. -/
def braceOpen : Char := Char.ofNat 123

/-- The closing brace of a serialised JSON object. -/
def braceClose : Char := Char.ofNat 125

/-- Lower-case hexadecimal digit of `k % 16` (as `json.dumps` emits in
`\u00xx` escapes). -/
def hexDigit (k : Nat) : Char :=
  if k % 16 < 10 then Char.ofNat (48 + k % 16) else Char.ofNat (87 + k % 16)

/-- The numeric value of one hexadecimal digit character. -/
def hexVal (c : Char) : Option Nat :=
  if 48 ≤ c.toNat ∧ c.toNat ≤ 57 then some (c.toNat - 48)
  else if 97 ≤ c.toNat ∧ c.toNat ≤ 102 then some (c.toNat - 87)
  else if 65 ≤ c.toNat ∧ c.toNat ≤ 70 then some (c.toNat - 55)
  else none

/-- How `json.dumps` escapes one character (with `ensure_ascii=False`):
the two-character named escapes, `\u00xx` for the remaining control
characters, everything else verbatim. -/
def escChar (c : Char) : List Char :=
  if c = '"' then ['\\', '"']
  else if c = '\\' then ['\\', '\\']
  else if c = '\n' then ['\\', 'n']
  else if c = '\r' then ['\\', 'r']
  else if c = '\t' then ['\\', 't']
  else if c = Char.ofNat 8 then ['\\', 'b']
  else if c = Char.ofNat 12 then ['\\', 'f']
  else if c.toNat < 32 then
    ['\\', 'u', '0', '0', hexDigit (c.toNat / 16), hexDigit c.toNat]
  else [c]

/-- `json.dumps` escaping of a whole string body. -/
def escape : List Char → List Char
  | [] => []
  | c :: cs => escChar c ++ escape cs

/-- A serialised JSON string: quote, escaped body, quote. -/
def quoteStr (s : String) : List Char := '"' :: escape s.data ++ ['"']

/-- The members of a serialised flat JSON object, with `json.dumps`'s
default separators `", "` and `": "`. -/
def memberChars : List (String × String) → List Char
  | [] => []
  | [(k, v)] => quoteStr k ++ ':' :: ' ' :: quoteStr v
  | (k, v) :: rest => quoteStr k ++ ':' :: ' ' :: quoteStr v ++ ',' :: ' ' :: memberChars rest

/-- `json.dumps(log_entry, ensure_ascii=False)` for a flat object with
string values, as `EcoAgentLogger._write_log` serialises it. -/
def serializeEntry (fields : List (String × String)) : List Char :=
  braceOpen :: memberChars fields ++ [braceClose]

/-- The line `_write_log` appends to the event log (eco_agent.py 84-90):
the serialised object followed by one newline. -/
def logLine (fields : List (String × String)) : List Char :=
  serializeEntry fields ++ ['\n']

/-- `EcoAgentLogger.on_agent_action` (eco_agent.py 63-72): the log entry
of one capability invocation. -/
def on_agent_action (now : DateTime) (tool tool_input lg : String) :
    List (String × String) :=
  [("timestamp", isoformat now), ("type", "agent_action"),
   ("tool", tool), ("tool_input", tool_input), ("log", lg)]

/-- `EcoAgentLogger.on_agent_finish` (eco_agent.py 74-82): the log entry
of one final answer. -/
def on_agent_finish (now : DateTime) (output lg : String) :
    List (String × String) :=
  [("timestamp", isoformat now), ("type", "agent_finish"),
   ("output", output), ("log", lg)]

/-- Decodes one escape sequence after a backslash: the named escapes and
`\u` followed by four hexadecimal digits. -/
def decodeEsc (cs : List Char) : Option (Char × List Char) :=
  match cs with
  | 'n' :: cs2 => some ('\n', cs2)
  | 'r' :: cs2 => some ('\r', cs2)
  | 't' :: cs2 => some ('\t', cs2)
  | 'b' :: cs2 => some (Char.ofNat 8, cs2)
  | 'f' :: cs2 => some (Char.ofNat 12, cs2)
  | '"' :: cs2 => some ('"', cs2)
  | '\\' :: cs2 => some ('\\', cs2)
  | 'u' :: h1 :: h2 :: h3 :: h4 :: cs2 =>
    match hexVal h1, hexVal h2, hexVal h3, hexVal h4 with
    | some a, some b, some c3, some d =>
      some (Char.ofNat (((a * 16 + b) * 16 + c3) * 16 + d), cs2)
    | _, _, _, _ => none
  | _ => none

/-- Reads one escaped JSON string body up to its closing quote, undoing
`escChar`; returns the decoded characters and the remaining input.
`fuel` bounds the number of decoded characters. -/
def parseStrAux : Nat → List Char → List Char → Option (List Char × List Char)
  | 0, _, _ => none
  | fuel + 1, l, acc =>
    match l with
    | [] => none
    | c :: cs =>
      if c = '"' then some (acc.reverse, cs)
      else if c = '\\' then
        match decodeEsc cs with
        | some (x, cs2) => parseStrAux fuel cs2 (x :: acc)
        | none => none
      else parseStrAux fuel cs (c :: acc)

/-- Reads the `"key": "value"` members of a serialised object, consuming
the closing brace; `fuel` bounds the number of members. -/
def parseMembers : Nat → List Char → Option (List (String × String))
  | 0, _ => none
  | fuel + 1, l =>
    match l with
    | '"' :: l1 =>
      match parseStrAux l1.length l1 [] with
      | some (k, l2) =>
        match l2 with
        | ':' :: ' ' :: '"' :: l3 =>
          match parseStrAux l3.length l3 [] with
          | some (v, l4) =>
            match l4 with
            | ',' :: ' ' :: l5 =>
              match parseMembers fuel l5 with
              | some ps => some ((⟨k⟩, ⟨v⟩) :: ps)
              | none => none
            | [c] => if c = braceClose then some [(⟨k⟩, ⟨v⟩)] else none
            | _ => none
          | none => none
        | _ => none
      | none => none
    | _ => none

/-- Parses one serialised log line (without its trailing newline) back
into its fields. -/
def parseEntry (l : List Char) : Option (List (String × String)) :=
  match l with
  | b :: c :: rest =>
    if b = braceOpen then
      if c = braceClose ∧ rest = [] then some []
      else parseMembers (c :: rest).length (c :: rest)
    else none
  | _ => none

/-! Sanity checks of the serialiser and parser. -/

example :
    parseEntry (serializeEntry (on_agent_action ⟨2024, 10, 1, 12, 30, 5, 42⟩
        "Consulta RAG" "línea1\nlínea2" "razón \"x\"\\y"))
      = some (on_agent_action ⟨2024, 10, 1, 12, 30, 5, 42⟩
        "Consulta RAG" "línea1\nlínea2" "razón \"x\"\\y") := by decide

example : isIso8601 (isoformat ⟨2024, 10, 1, 12, 30, 5, 42⟩) = true := by decide

example : isIso8601 (isoformat ⟨2024, 10, 1, 12, 30, 5, 0⟩) = true := by decide

example : isoformat ⟨2024, 10, 1, 12, 30, 5, 42⟩ = "2024-10-01T12:30:05.000042" := by decide

example :
    (logLine (on_agent_finish ⟨2024, 10, 1, 12, 30, 5, 42⟩ "respuesta\nfinal" "log")).count '\n'
      = 1 := by decide

/-! ### Round-trip and one-line properties of the event log (claim C9) -/

lemma hexDigit_mod (k : Nat) : hexDigit k = hexDigit (k % 16) := by
  unfold hexDigit
  have h : k % 16 % 16 = k % 16 := by omega
  rw [h]

lemma hexDigit_bounded_ne_newline : ∀ m, m < 16 → hexDigit m ≠ '\n' := by decide

lemma hexDigit_ne_newline (k : Nat) : hexDigit k ≠ '\n' := by
  rw [hexDigit_mod]
  exact hexDigit_bounded_ne_newline (k % 16) (by omega)

lemma hexVal_hexDigit_bounded : ∀ m, m < 16 → hexVal (hexDigit m) = some m := by decide

lemma hexVal_hexDigit (k : Nat) (h : k < 16) : hexVal (hexDigit k) = some k := by
  rw [hexDigit_mod, Nat.mod_eq_of_lt h]
  exact hexVal_hexDigit_bounded k h

lemma escChar_ne_newline (c : Char) : ∀ x ∈ escChar c, x ≠ '\n' := by
  intro x hx
  unfold escChar at hx
  split_ifs at hx with h1 h2 h3 h4 h5 h6 h7 h8
  · rcases List.mem_cons.mp hx with rfl | hx <;> simp_all
  · rcases List.mem_cons.mp hx with rfl | hx <;> simp_all
  · rcases List.mem_cons.mp hx with rfl | hx <;> simp_all
  · rcases List.mem_cons.mp hx with rfl | hx <;> simp_all
  · rcases List.mem_cons.mp hx with rfl | hx <;> simp_all
  · rcases List.mem_cons.mp hx with rfl | hx <;> simp_all
  · rcases List.mem_cons.mp hx with rfl | hx <;> simp_all
  · simp only [List.mem_cons, List.not_mem_nil, or_false] at hx
    rcases hx with rfl | rfl | rfl | rfl | rfl | rfl
    · decide
    · decide
    · decide
    · decide
    · exact hexDigit_ne_newline _
    · exact hexDigit_ne_newline _
  · rcases List.mem_singleton.mp hx with rfl
    intro habs
    apply h3
    exact habs

lemma parse_escChar (c : Char) (l acc : List Char) (f : Nat) :
    parseStrAux (f + 1) (escChar c ++ l) acc = parseStrAux f l (c :: acc) := by
  unfold escChar
  split_ifs with h1 h2 h3 h4 h5 h6 h7 h8
  · subst h1; simp [parseStrAux, decodeEsc]
  · subst h2; simp [parseStrAux, decodeEsc]
  · subst h3; simp [parseStrAux, decodeEsc]
  · subst h4; simp [parseStrAux, decodeEsc]
  · subst h5; simp [parseStrAux, decodeEsc]
  · subst h6; simp [parseStrAux, decodeEsc]
  · subst h7; simp [parseStrAux, decodeEsc]
  · have hv1 : hexVal '0' = some 0 := by decide
    have hv3 : hexVal (hexDigit (c.toNat / 16)) = some (c.toNat / 16) :=
      hexVal_hexDigit _ (by omega)
    have hv4 : hexVal (hexDigit c.toNat) = some (c.toNat % 16) := by
      rw [hexDigit_mod]
      exact hexVal_hexDigit _ (by omega)
    simp only [List.cons_append, List.nil_append, parseStrAux, decodeEsc, hv1, hv3, hv4]
    have hval : c.toNat / 16 * 16 + c.toNat % 16 = c.toNat := by omega
    simp [hval, Char.ofNat_toNat]
  · simp only [List.cons_append, List.nil_append, parseStrAux]
    simp [h1, h2]

lemma parse_escape (cs : List Char) :
    ∀ (rest acc : List Char) (f : Nat), cs.length < f →
      parseStrAux f (escape cs ++ '"' :: rest) acc = some (acc.reverse ++ cs, rest) := by
  induction cs with
  | nil =>
    intro rest acc f hf
    match f, hf with
    | f + 1, _ => simp [escape, parseStrAux]
  | cons c cs ih =>
    intro rest acc f hf
    match f, hf with
    | f + 1, hf =>
      have hstep : escape (c :: cs) ++ '"' :: rest = escChar c ++ (escape cs ++ '"' :: rest) := by
        simp [escape, List.append_assoc]
      rw [hstep, parse_escChar, ih rest (c :: acc) f (by simpa using Nat.lt_of_succ_lt_succ hf)]
      simp

lemma escChar_length_pos (c : Char) : 1 ≤ (escChar c).length := by
  unfold escChar
  split_ifs <;> simp

lemma escape_length_ge (cs : List Char) : cs.length ≤ (escape cs).length := by
  induction cs with
  | nil => simp [escape]
  | cons c cs ih =>
    have := escChar_length_pos c
    simp only [escape, List.length_append, List.length_cons]
    omega

lemma escape_ne_newline (l : List Char) : ∀ x ∈ escape l, x ≠ '\n' := by
  induction l with
  | nil => intro x hx; simp [escape] at hx
  | cons c cs ih =>
    intro x hx
    rcases List.mem_append.mp (by simpa [escape] using hx) with hx | hx
    · exact escChar_ne_newline c x hx
    · exact ih x hx

lemma quoteStr_ne_newline (s : String) : ∀ x ∈ quoteStr s, x ≠ '\n' := by
  intro x hx
  simp only [quoteStr, List.mem_cons, List.mem_append, List.mem_singleton] at hx
  rcases hx with (rfl | hx) | (rfl | h0)
  · decide
  · exact escape_ne_newline s.data x hx
  · decide
  · exact absurd h0 (List.not_mem_nil x)

lemma memberChars_ne_newline (fields : List (String × String)) :
    ∀ x ∈ memberChars fields, x ≠ '\n' := by
  induction fields with
  | nil => intro x hx; simp [memberChars] at hx
  | cons kv rest ih =>
    rcases kv with ⟨k, v⟩
    rcases rest with _ | ⟨kv2, rest2⟩
    · intro x hx
      simp only [memberChars] at hx
      rcases List.mem_append.mp hx with hx | hx
      · exact quoteStr_ne_newline k x hx
      · rcases List.mem_cons.mp hx with rfl | hx
        · decide
        · rcases List.mem_cons.mp hx with rfl | hx
          · decide
          · exact quoteStr_ne_newline v x hx
    · intro x hx
      simp only [memberChars] at hx
      rcases List.mem_append.mp hx with hx | hx
      · rcases List.mem_append.mp hx with hx | hx
        · exact quoteStr_ne_newline k x hx
        · rcases List.mem_cons.mp hx with rfl | hx
          · decide
          · rcases List.mem_cons.mp hx with rfl | hx
            · decide
            · exact quoteStr_ne_newline v x hx
      · rcases List.mem_cons.mp hx with rfl | hx
        · decide
        · rcases List.mem_cons.mp hx with rfl | hx
          · decide
          · exact ih x hx

lemma serializeEntry_count_newline (fields : List (String × String)) :
    (serializeEntry fields).count '\n' = 0 := by
  apply List.count_eq_zero.mpr
  intro hmem
  rcases List.mem_cons.mp hmem with h | h
  · exact absurd h (by decide)
  · rcases List.mem_append.mp h with h | h
    · exact memberChars_ne_newline fields _ h rfl
    · exact absurd (List.mem_singleton.mp h) (by decide)

lemma logLine_count_newline (fields : List (String × String)) :
    (logLine fields).count '\n' = 1 := by
  simp [logLine, List.count_append, serializeEntry_count_newline]

lemma quoteStr_length_ge (s : String) : 2 ≤ (quoteStr s).length := by
  simp only [quoteStr, List.cons_append, List.length_cons, List.length_append,
    List.length_singleton]
  omega

lemma memberChars_length_ge (fields : List (String × String)) :
    fields.length ≤ (memberChars fields).length := by
  induction fields with
  | nil => simp [memberChars]
  | cons kv rest ih =>
    rcases kv with ⟨k, v⟩
    rcases rest with _ | ⟨kv2, rest2⟩
    · have := quoteStr_length_ge k
      simp only [memberChars, List.length_append, List.length_cons, List.length]
      omega
    · have := quoteStr_length_ge k
      simp only [memberChars, List.append_eq, List.length_append, List.length_cons,
        List.length] at ih ⊢
      omega

lemma parse_members :
    ∀ (fields : List (String × String)) (fuel : Nat), fields ≠ [] →
      fields.length ≤ fuel →
      parseMembers fuel (memberChars fields ++ [braceClose]) = some fields := by
  intro fields
  induction fields with
  | nil => intro fuel h _; exact absurd rfl h
  | cons kv rest ih =>
    rcases kv with ⟨k, v⟩
    intro fuel _ hlen
    match fuel, hlen with
    | fuel + 1, hlen =>
      rcases rest with _ | ⟨kv2, rest2⟩
      · simp only [memberChars, quoteStr, List.cons_append, List.append_assoc,
          List.nil_append]
        have hlk : k.data.length <
            (escape k.data ++ '"' :: ':' :: ' ' :: '"'
              :: (escape v.data ++ '"' :: [braceClose])).length := by
          have := escape_length_ge k.data
          simp only [List.length_append, List.length_cons]
          omega
        have hk := parse_escape k.data
          (':' :: ' ' :: '"' :: (escape v.data ++ '"' :: [braceClose])) [] _ hlk
        simp only [List.reverse_nil, List.nil_append] at hk
        have hlv : v.data.length < (escape v.data ++ '"' :: [braceClose]).length := by
          have := escape_length_ge v.data
          simp only [List.length_append, List.length_cons]
          omega
        have hv := parse_escape v.data [braceClose] [] _ hlv
        simp only [List.reverse_nil, List.nil_append] at hv
        simp only [parseMembers, hk, hv]
        rfl
      · simp only [memberChars, quoteStr, List.cons_append, List.append_assoc,
          List.nil_append]
        have hlk : k.data.length <
            (escape k.data ++ '"' :: ':' :: ' ' :: '"'
              :: (escape v.data ++ '"' :: ',' :: ' '
                :: (memberChars (kv2 :: rest2) ++ [braceClose]))).length := by
          have := escape_length_ge k.data
          simp only [List.length_append, List.length_cons]
          omega
        have hk := parse_escape k.data
          (':' :: ' ' :: '"' :: (escape v.data ++ '"' :: ',' :: ' '
            :: (memberChars (kv2 :: rest2) ++ [braceClose]))) [] _ hlk
        simp only [List.reverse_nil, List.nil_append] at hk
        have hlv : v.data.length <
            (escape v.data ++ '"' :: ',' :: ' '
              :: (memberChars (kv2 :: rest2) ++ [braceClose])).length := by
          have := escape_length_ge v.data
          simp only [List.length_append, List.length_cons]
          omega
        have hv := parse_escape v.data
          (',' :: ' ' :: (memberChars (kv2 :: rest2) ++ [braceClose])) [] _ hlv
        simp only [List.reverse_nil, List.nil_append] at hv
        have hrec := ih fuel (by simp) (by
          simp only [List.length_cons] at hlen ⊢
          omega)
        simp only [parseMembers, hk, hv, hrec]

lemma parse_serializeEntry (fields : List (String × String)) :
    parseEntry (serializeEntry fields) = some fields := by
  rcases fields with _ | ⟨⟨k, v⟩, rest⟩
  · decide
  · obtain ⟨t, ht⟩ : ∃ t, memberChars ((k, v) :: rest) ++ [braceClose] = '"' :: t := by
      rcases rest with _ | ⟨kv2, rest2⟩
      · exact ⟨escape k.data ++ '"' :: ':' :: ' ' :: '"'
            :: (escape v.data ++ ['"', braceClose]),
          by simp [memberChars, quoteStr, List.cons_append, List.append_assoc]⟩
      · exact ⟨escape k.data ++ '"' :: ':' :: ' ' :: '"'
            :: (escape v.data ++ '"' :: ',' :: ' '
              :: (memberChars (kv2 :: rest2) ++ [braceClose])),
          by simp [memberChars, quoteStr, List.cons_append, List.append_assoc]⟩
    have hc : ¬('"' = braceClose ∧ t = []) := by
      rintro ⟨h1, -⟩
      exact absurd h1 (by decide)
    have hfuel : ((k, v) :: rest).length
        ≤ (memberChars ((k, v) :: rest) ++ [braceClose]).length := by
      have := memberChars_length_ge ((k, v) :: rest)
      simp only [List.length_append, List.length_singleton, List.length_cons] at this ⊢
      omega
    show parseEntry (braceOpen :: (memberChars ((k, v) :: rest) ++ [braceClose]))
      = some ((k, v) :: rest)
    rw [ht]
    show (if braceOpen = braceOpen then
            if '"' = braceClose ∧ t = [] then some []
            else parseMembers ('"' :: t).length ('"' :: t)
          else none) = some ((k, v) :: rest)
    rw [if_pos rfl, if_neg hc, ← ht]
    exact parse_members ((k, v) :: rest) _ (by simp) hfuel

lemma digitChar_isDigit (k : Nat) : (digitChar k).isDigit = true := by
  have h : k % 10 < 10 := by omega
  unfold digitChar
  revert h
  generalize k % 10 = m
  revert m
  decide

lemma isoformat_iso (dt : DateTime) : isIso8601 (isoformat dt) = true := by
  by_cases hus : dt.microsecond = 0
  · simp [isoformat, isIso8601, pad4, pad2, pad6, hus, digitChar_isDigit,
      List.cons_append, List.append_assoc, List.nil_append]
  · simp [isoformat, isIso8601, pad4, pad2, pad6, hus, digitChar_isDigit,
      List.cons_append, List.append_assoc, List.nil_append]

/-- C9 counterexample: the `type` field the logger writes is
`"agent_action"` / `"agent_finish"`, not `"action"` / `"finish"` as the
claim states. -/
theorem log_type_field_cex :
    (on_agent_action ⟨2024, 10, 1, 12, 0, 0, 0⟩ "Verificar Elegibilidad de Producto"
        "PROD001, 2024-10-01" "pensamiento").lookup "type" = some "agent_action" ∧
    ¬("agent_action" = "action" ∨ "agent_action" = "finish") ∧
    (on_agent_finish ⟨2024, 10, 1, 12, 0, 1, 0⟩ "respuesta" "final").lookup "type"
      = some "agent_finish" ∧
    ¬("agent_finish" = "action" ∨ "agent_finish" = "finish") := by
  decide

/-- C9 (amended): every capability invocation and every final answer
yields exactly one event-log line — the serialised JSON object holds no
newline and `_write_log` appends exactly one — whose `timestamp` is the
ISO-8601 `isoformat` of `datetime.now()` and whose `type` is
`"agent_action"` or `"agent_finish"` (not `"action"`/`"finish"`), and
parsing the line back recovers exactly the original structured fields. -/
theorem log_roundtrip_spec (now : DateTime) (tool tool_input lg output lg2 : String)
    (_h : validDT now) :
    (serializeEntry (on_agent_action now tool tool_input lg)).count '\n' = 0 ∧
    (logLine (on_agent_action now tool tool_input lg)).count '\n' = 1 ∧
    (serializeEntry (on_agent_finish now output lg2)).count '\n' = 0 ∧
    (logLine (on_agent_finish now output lg2)).count '\n' = 1 ∧
    (on_agent_action now tool tool_input lg).lookup "type" = some "agent_action" ∧
    (on_agent_finish now output lg2).lookup "type" = some "agent_finish" ∧
    (on_agent_action now tool tool_input lg).lookup "timestamp" = some (isoformat now) ∧
    isIso8601 (isoformat now) = true ∧
    parseEntry (serializeEntry (on_agent_action now tool tool_input lg))
      = some (on_agent_action now tool tool_input lg) ∧
    parseEntry (serializeEntry (on_agent_finish now output lg2))
      = some (on_agent_finish now output lg2) := by
  exact ⟨serializeEntry_count_newline _, logLine_count_newline _,
    serializeEntry_count_newline _, logLine_count_newline _,
    rfl, rfl, rfl, isoformat_iso now,
    parse_serializeEntry _, parse_serializeEntry _⟩

/-- C9 witness: a concrete action and finish event. -/
theorem log_roundtrip_witness :
    (serializeEntry (on_agent_action ⟨2024, 10, 1, 12, 30, 5, 42⟩ "Consulta RAG"
        "¿políticas?" "pensé")).count '\n' = 0 ∧
    (logLine (on_agent_action ⟨2024, 10, 1, 12, 30, 5, 42⟩ "Consulta RAG"
        "¿políticas?" "pensé")).count '\n' = 1 ∧
    (serializeEntry (on_agent_finish ⟨2024, 10, 1, 12, 30, 5, 42⟩ "respuesta"
        "fin")).count '\n' = 0 ∧
    (logLine (on_agent_finish ⟨2024, 10, 1, 12, 30, 5, 42⟩ "respuesta"
        "fin")).count '\n' = 1 ∧
    (on_agent_action ⟨2024, 10, 1, 12, 30, 5, 42⟩ "Consulta RAG"
        "¿políticas?" "pensé").lookup "type" = some "agent_action" ∧
    (on_agent_finish ⟨2024, 10, 1, 12, 30, 5, 42⟩ "respuesta"
        "fin").lookup "type" = some "agent_finish" ∧
    (on_agent_action ⟨2024, 10, 1, 12, 30, 5, 42⟩ "Consulta RAG"
        "¿políticas?" "pensé").lookup "timestamp"
      = some (isoformat ⟨2024, 10, 1, 12, 30, 5, 42⟩) ∧
    isIso8601 (isoformat ⟨2024, 10, 1, 12, 30, 5, 42⟩) = true ∧
    parseEntry (serializeEntry (on_agent_action ⟨2024, 10, 1, 12, 30, 5, 42⟩
        "Consulta RAG" "¿políticas?" "pensé"))
      = some (on_agent_action ⟨2024, 10, 1, 12, 30, 5, 42⟩ "Consulta RAG"
        "¿políticas?" "pensé") ∧
    parseEntry (serializeEntry (on_agent_finish ⟨2024, 10, 1, 12, 30, 5, 42⟩
        "respuesta" "fin"))
      = some (on_agent_finish ⟨2024, 10, 1, 12, 30, 5, 42⟩ "respuesta" "fin") :=
  log_roundtrip_spec ⟨2024, 10, 1, 12, 30, 5, 42⟩ "Consulta RAG" "¿políticas?" "pensé"
    "respuesta" "fin" (by unfold validDT; decide)
